import Mathlib

/-!
Shallow embedding of the Yt_studytool frontend (React/TypeScript) and of the
study-material fallback pipeline described by its specification.

Conventions of the embedding:
* JS strings are `String`; JS numbers used as counts or indices are `Int`
  (quiz and flashcard indices can be compared against `length - 1`);
  the quiz score is `ℚ` (the exact value of the score formula);
* `published_date` strings are embedded by their epoch value (`Option Int`),
  which is how the code consumes them (`new Date(d).getTime()`);
* JS objects used as answer maps (`{ [index: number]: string }`) are
  functions `Nat → Option String`;
* optional fields (`field?: T`) are `Option T`; the JS `x || d` idiom on
  strings (empty string is falsy) is `jsOr`;
* async store actions are functions of the store state and of an explicit
  outcome value describing what the awaited request did.
-/

/-- JS `a || d` for an optional string: `undefined` and `""` are falsy. -/
def jsOr (o : Option String) (d : String) : String :=
  match o with
  | some s => if s = "" then d else s
  | none => d

/-- JS `title.includes(pat)` for a non-empty pattern `pat`. -/
def jsIncludes (s pat : String) : Bool :=
  decide ((s.splitOn pat).length > 1)

/-- JS `s.trim()`: strips leading and trailing whitespace. -/
def jsTrim (s : String) : String :=
  ⟨((s.data.dropWhile Char.isWhitespace).reverse.dropWhile Char.isWhitespace).reverse⟩

/-- A top comment on a video (frontend/src/types/index.ts). -/
structure Comment where
  text : String
  author : String
  likes : Int
deriving DecidableEq, Repr

/-- A video search result (frontend/src/types/index.ts). -/
structure Video where
  title : String
  video_url : String
  views : Int
  likes : Int
  description : String
  comment_count : Int
  top_comments : List Comment
  thumbnail_url : String
  published_date : Option Int
  duration : Option Int
deriving DecidableEq, Repr

/-- Response of `POST /get_videos` (frontend/src/types/index.ts). -/
structure VideoResponse where
  videos : List Video
  total_count : Int
  source : String
  keyword : String
deriving DecidableEq, Repr

inductive SortOption where
  | relevance | views | likes | date | duration
deriving DecidableEq, Repr

inductive DurationFilter where
  | all | short | medium | long
deriving DecidableEq, Repr

/-- The string value of a duration filter, as compared in `filterVideos`. -/
def DurationFilter.key : DurationFilter → String
  | .all => "all"
  | .short => "short"
  | .medium => "medium"
  | .long => "long"

inductive ContentTypeFilter where
  | all | videos | shorts
deriving DecidableEq, Repr

/-- The string value of a content-type filter, as compared in `filterVideos`. -/
def ContentTypeFilter.key : ContentTypeFilter → String
  | .all => "all"
  | .videos => "videos"
  | .shorts => "shorts"

inductive Theme where
  | light | dark | system
deriving DecidableEq, Repr

inductive TabType where
  | overview | transcription | summary | comments | learning
  | syllabus | quiz | report | offline | study
deriving DecidableEq, Repr

structure FilterState where
  sortBy : SortOption
  durationFilter : DurationFilter
  contentTypeFilter : ContentTypeFilter
  currentPage : Nat
  itemsPerPage : Nat
deriving DecidableEq, Repr

structure TranscriptionState where
  transcription : String
  summary : String
  video_title : String
  video_url : String
  isTranscribing : Bool
  isSummarizing : Bool
  transcriptionError : Option String
  summarizationError : Option String
deriving DecidableEq, Repr

structure Flashcard where
  question : String
  answer : String
  type : String
deriving DecidableEq, Repr

inductive CardRating where
  | known | difficult | unanswered
deriving DecidableEq, Repr

structure LearningModeState where
  flashcards : List Flashcard
  currentCardIndex : Int
  showAnswer : Bool
  cardProgress : Int → Option CardRating
  isGenerating : Bool
  error : Option String
  video_title : String
  video_id : String

structure SyllabusTopic where
  unit : String
  topic : String
  description : Option String
deriving DecidableEq, Repr

structure SyllabusVideoMapping where
  topic : String
  unit : String
  videos : List Video
deriving DecidableEq, Repr

structure SyllabusState where
  topics : List SyllabusTopic
  syllabusVideos : List SyllabusVideoMapping
  isUploading : Bool
  isProcessing : Bool
  error : Option String
  totalTopics : Int
  totalVideos : Int
deriving DecidableEq, Repr

/-- A generated quiz question (frontend/src/types/index.ts). -/
structure QuizQuestion where
  question : String
  options : List String
  answer : String
  explanation : Option String
  topic : String
  difficulty : Option String
  type : Option String
deriving DecidableEq, Repr, Inhabited

structure QuizState where
  questions : List QuizQuestion
  currentQuestionIndex : Int
  userAnswers : Nat → Option String
  isGenerating : Bool
  isCompleted : Bool
  score : ℚ
  error : Option String
  totalQuestions : Int
  topicsCovered : List String
  source : Option String
  difficulty : Option String
  questionTypes : Option (List String)
  subject : Option String

/-- Report payload; the untyped `report_data: any` field is not modelled. -/
structure ReportResponse where
  overall_score : ℚ
  topic_scores : List (String × ℚ)
  weak_areas : List String
  recommendations : List String
  common_mistakes : List String
  unwatched_topics : List String
deriving DecidableEq, Repr

structure ReportState where
  report : Option ReportResponse
  isGenerating : Bool
  error : Option String
deriving DecidableEq, Repr

/-- The global Zustand store state (frontend/src/store/useVideoStore.ts). -/
structure Store where
  keyword : String
  loading : Bool
  videos : List Video
  filteredVideos : List Video
  paginatedVideos : List Video
  error : Option String
  totalCount : Int
  source : String
  theme : Theme
  activeTab : TabType
  filterState : FilterState
  transcriptionState : TranscriptionState
  learningModeState : LearningModeState
  syllabusState : SyllabusState
  quizState : QuizState
  reportState : ReportState

/-- Duration category of a video (`getDurationCategory` in useVideoStore.ts);
`!duration` is true for a missing duration and for `0`. -/
def getDurationCategory (duration : Option Int) : String :=
  match duration with
  | none => "unknown"
  | some d =>
    if d = 0 then "unknown"
    else if d < 240 then "short"
    else if d < 1200 then "medium"
    else "long"

/-- Content type of a video (`getContentType` in useVideoStore.ts). -/
def getContentType (video : Video) : String :=
  let title := video.title.toLower
  let duration := video.duration.getD 0
  if duration < 60 || jsIncludes title "#shorts" || jsIncludes title "short" then "shorts"
  else "videos"

/-- `filterVideos` in useVideoStore.ts. -/
def filterVideos (videos : List Video) (filters : FilterState) : List Video :=
  videos.filter fun video =>
    (if filters.durationFilter ≠ DurationFilter.all then
       getDurationCategory video.duration == filters.durationFilter.key
     else true)
    && (if filters.contentTypeFilter ≠ ContentTypeFilter.all then
          getContentType video == filters.contentTypeFilter.key
        else true)

/-- `sortVideos` in useVideoStore.ts; JS `Array.prototype.sort` is stable, and
each comparator sorts in descending order of the compared key. -/
def sortVideos (videos : List Video) (sortBy : SortOption) : List Video :=
  if videos.isEmpty then []
  else
    match sortBy with
    | .views => videos.mergeSort fun a b => decide (b.views ≤ a.views)
    | .likes => videos.mergeSort fun a b => decide (b.likes ≤ a.likes)
    | .date =>
      videos.mergeSort fun a b =>
        match a.published_date, b.published_date with
        | some dateA, some dateB => decide (dateB ≤ dateA)
        | _, _ => true
    | .duration => videos.mergeSort fun a b => decide (b.duration.getD 0 ≤ a.duration.getD 0)
    | .relevance => videos

/-- `paginateVideos` in useVideoStore.ts: `videos.slice(startIndex, endIndex)`
with `startIndex = (currentPage - 1) * itemsPerPage`. -/
def paginateVideos (videos : List Video) (currentPage : Nat) (itemsPerPage : Nat) : List Video :=
  let startIndex := (currentPage - 1) * itemsPerPage
  (videos.drop startIndex).take itemsPerPage

def setKeyword (keyword : String) (s : Store) : Store :=
  { s with keyword := keyword }

def setLoading (loading : Bool) (s : Store) : Store :=
  { s with loading := loading }

def setTheme (theme : Theme) (s : Store) : Store :=
  { s with theme := theme }

def setActiveTab (activeTab : TabType) (s : Store) : Store :=
  { s with activeTab := activeTab }

/-- `setResults` in useVideoStore.ts.  Note: the paginated slice is computed
with the pre-existing `filterState.currentPage`, while the stored
`filterState` has `currentPage` reset to 1. -/
def setResults (response : VideoResponse) (s : Store) : Store :=
  let filterState := s.filterState
  let filtered := filterVideos response.videos filterState
  let sorted := sortVideos filtered filterState.sortBy
  let paginated := paginateVideos sorted filterState.currentPage filterState.itemsPerPage
  { s with
    videos := response.videos
    filteredVideos := sorted
    paginatedVideos := paginated
    totalCount := response.total_count
    source := response.source
    keyword := response.keyword
    error := none
    filterState := { filterState with currentPage := 1 } }

/-- `setError` in useVideoStore.ts. -/
def setError (error : String) (s : Store) : Store :=
  { s with
    error := some error
    videos := []
    filteredVideos := []
    paginatedVideos := []
    totalCount := 0
    source := "" }

def clearError (s : Store) : Store :=
  { s with error := none }

/-- `setSortBy` in useVideoStore.ts. -/
def setSortBy (sortBy : SortOption) (s : Store) : Store :=
  let filtered := filterVideos s.videos { s.filterState with sortBy := sortBy }
  let sorted := sortVideos filtered sortBy
  let paginated := paginateVideos sorted 1 s.filterState.itemsPerPage
  { s with
    filterState := { s.filterState with sortBy := sortBy, currentPage := 1 }
    filteredVideos := sorted
    paginatedVideos := paginated }

/-- `setDurationFilter` in useVideoStore.ts. -/
def setDurationFilter (durationFilter : DurationFilter) (s : Store) : Store :=
  let filtered := filterVideos s.videos { s.filterState with durationFilter := durationFilter }
  let sorted := sortVideos filtered s.filterState.sortBy
  let paginated := paginateVideos sorted 1 s.filterState.itemsPerPage
  { s with
    filterState := { s.filterState with durationFilter := durationFilter, currentPage := 1 }
    filteredVideos := sorted
    paginatedVideos := paginated }

/-- `setContentTypeFilter` in useVideoStore.ts. -/
def setContentTypeFilter (contentTypeFilter : ContentTypeFilter) (s : Store) : Store :=
  let filtered := filterVideos s.videos { s.filterState with contentTypeFilter := contentTypeFilter }
  let sorted := sortVideos filtered s.filterState.sortBy
  let paginated := paginateVideos sorted 1 s.filterState.itemsPerPage
  { s with
    filterState := { s.filterState with contentTypeFilter := contentTypeFilter, currentPage := 1 }
    filteredVideos := sorted
    paginatedVideos := paginated }

/-- `setCurrentPage` in useVideoStore.ts. -/
def setCurrentPage (currentPage : Nat) (s : Store) : Store :=
  { s with
    filterState := { s.filterState with currentPage := currentPage }
    paginatedVideos := paginateVideos s.filteredVideos currentPage s.filterState.itemsPerPage }

/-- What the awaited `axios.post` call in `fetchVideos` did: a successful
response, a non-2xx response (`error.response`, with its optional
`data.detail` and `data.error` fields), no response at all
(`error.request`), an axios error without request or response, or a
non-axios exception (whose message exists when it is an `Error`). -/
inductive FetchOutcome where
  | success (response : VideoResponse)
  | httpError (detail : Option String) (dataError : Option String)
  | noResponse
  | axiosOther (message : String)
  | nonAxios (message : Option String)
deriving DecidableEq, Repr

/-- `fetchVideos` in useVideoStore.ts, as a state transformer over the store
and the request outcome.  Every path of the source is represented: the empty
keyword early return, the success path (`setResults`), the three catch
branches (`setError` with the corresponding message), and the `finally`
branch (`setLoading(false)`). -/
def fetchVideos (keyword : String) (outcome : FetchOutcome) (s : Store) : Store :=
  if jsTrim keyword = "" then setError "Please enter a keyword to search" s
  else
    let s1 := setError "" (setLoading true s)
    let s2 :=
      match outcome with
      | .success response => setResults response s1
      | .httpError detail dataError =>
        setError ("Failed to fetch videos: " ++ jsOr detail (jsOr dataError "Server error occurred")) s1
      | .noResponse => setError "No response from server. Please check your connection." s1
      | .axiosOther message => setError ("Request failed: " ++ message) s1
      | .nonAxios message =>
        setError ("Unexpected error: " ++ (match message with | some m => m | none => "Unknown error")) s1
    setLoading false s2

/-- `submitQuizAnswer` in useVideoStore.ts. -/
def submitQuizAnswer (questionIndex : Nat) (answer : String) (s : Store) : Store :=
  { s with
    quizState :=
      { s.quizState with
        userAnswers := fun i => if i = questionIndex then some answer else s.quizState.userAnswers i } }

/-- `nextQuestion` in useVideoStore.ts. -/
def nextQuestion (s : Store) : Store :=
  if s.quizState.currentQuestionIndex < (s.quizState.questions.length : Int) - 1 then
    { s with
      quizState := { s.quizState with currentQuestionIndex := s.quizState.currentQuestionIndex + 1 } }
  else s

/-- `previousQuestion` in useVideoStore.ts. -/
def previousQuestion (s : Store) : Store :=
  if s.quizState.currentQuestionIndex > 0 then
    { s with
      quizState := { s.quizState with currentQuestionIndex := s.quizState.currentQuestionIndex - 1 } }
  else s

/-- The correct-answer count computed by the `forEach` loop of `completeQuiz`:
`userAnswers[index]` must be truthy (defined and non-empty) and strictly
equal to `question.answer`. -/
def correctAnswersCount (questions : List QuizQuestion) (userAnswers : Nat → Option String) : Nat :=
  questions.enum.countP fun p =>
    match userAnswers p.1 with
    | some userAnswer => !(userAnswer == "") && userAnswer == p.2.answer
    | none => false

/-- `completeQuiz` in useVideoStore.ts. -/
def completeQuiz (s : Store) : Store :=
  let questions := s.quizState.questions
  let userAnswers := s.quizState.userAnswers
  let correctAnswers := correctAnswersCount questions userAnswers
  let totalQuestions := questions.length
  let score : ℚ :=
    if totalQuestions > 0 then ((correctAnswers : ℚ) / (totalQuestions : ℚ)) * 100 else 0
  { s with quizState := { s.quizState with isCompleted := true, score := score } }

/-- `setCurrentCard` in useVideoStore.ts: the update is guarded by
`index >= 0 && index < flashcards.length`. -/
def setCurrentCard (index : Int) (s : Store) : Store :=
  if 0 ≤ index ∧ index < (s.learningModeState.flashcards.length : Int) then
    { s with
      learningModeState :=
        { s.learningModeState with currentCardIndex := index, showAnswer := false } }
  else s

/-- `toggleAnswer` in useVideoStore.ts. -/
def toggleAnswer (s : Store) : Store :=
  { s with
    learningModeState :=
      { s.learningModeState with showAnswer := !s.learningModeState.showAnswer } }

/-- The initial store state passed to `create` in useVideoStore.ts. -/
def initialStore : Store where
  keyword := ""
  loading := false
  videos := []
  filteredVideos := []
  paginatedVideos := []
  error := none
  totalCount := 0
  source := ""
  theme := .system
  activeTab := .overview
  filterState :=
    { sortBy := .relevance
      durationFilter := .all
      contentTypeFilter := .all
      currentPage := 1
      itemsPerPage := 12 }
  transcriptionState :=
    { transcription := ""
      summary := ""
      video_title := ""
      video_url := ""
      isTranscribing := false
      isSummarizing := false
      transcriptionError := none
      summarizationError := none }
  learningModeState :=
    { flashcards := []
      currentCardIndex := 0
      showAnswer := false
      cardProgress := fun _ => none
      isGenerating := false
      error := none
      video_title := ""
      video_id := "" }
  syllabusState :=
    { topics := []
      syllabusVideos := []
      isUploading := false
      isProcessing := false
      error := none
      totalTopics := 0
      totalVideos := 0 }
  quizState :=
    { questions := []
      currentQuestionIndex := 0
      userAnswers := fun _ => none
      isGenerating := false
      isCompleted := false
      score := 0
      error := none
      totalQuestions := 0
      topicsCovered := []
      source := some "api"
      difficulty := some "medium"
      questionTypes := some ["mcq", "true_false"]
      subject := some "General" }
  reportState :=
    { report := none
      isGenerating := false
      error := none }

/-- One scraped study-material record (`{title, url, description, source}`,
Study component in the frontend sources and spec section 3). -/
structure StudyMaterialRecord where
  title : String
  url : String
  description : String
  source : String
deriving DecidableEq, Repr

/-- One unit's study materials, keyed by category (Study component). -/
structure StudyMaterial where
  articles : List StudyMaterialRecord
  videos : List StudyMaterialRecord
  notes : List StudyMaterialRecord
deriving DecidableEq, Repr

/-- A study material with every category empty. -/
def emptyStudyMaterial : StudyMaterial where
  articles := []
  videos := []
  notes := []

/-- The combined result set of a study material is empty when all three
category lists are empty. -/
def StudyMaterial.isEmpty (m : StudyMaterial) : Bool :=
  m.articles.isEmpty && m.videos.isEmpty && m.notes.isEmpty

/-- Response of `POST /study/generate_study_material`: study materials keyed
by unit. -/
structure StudyMaterialResponse where
  subject : String
  study_materials : List (String × StudyMaterial)
  generator_type : Option String
deriving DecidableEq, Repr

/-- A quiz question of the Study component (part of the frontend sources). -/
structure StudyQuizQuestion where
  id : Int
  question : String
  options : List String
  correct_answer : String
  concept : String
  question_type : String
  difficulty : String
deriving DecidableEq, Repr

/-- The React state hooks of the Study component that its
`generateStudyMaterials` handler can read or write. -/
structure StudyComponent where
  selectedSubject : String
  selectedUnits : List String
  studyMaterials : List (String × StudyMaterial)
  quizQuestions : List StudyQuizQuestion
  currentQuestionIndex : Int
  userAnswers : Int → Option String
  quizCompleted : Bool
  loadingMaterials : Bool
  activeStep : Int

inductive ToastKind where
  | success | error
deriving DecidableEq, Repr

/-- What the awaited `axios.post` in the Study component's
`generateStudyMaterials` did. -/
inductive StudyRequestOutcome where
  | ok (response : StudyMaterialResponse)
  | failed (message : String)
deriving DecidableEq, Repr

/-- `generateStudyMaterials` of the Study component: validates that at least
one unit is selected before issuing the request; returns the new component
state, whether the HTTP request was issued, and the toasts shown.  The
`finally` branch clears `loadingMaterials` on both request paths. -/
def generateStudyMaterials (st : StudyComponent) (outcome : StudyRequestOutcome) :
    StudyComponent × Bool × List (ToastKind × String) :=
  if st.selectedUnits.length = 0 then
    (st, false, [(ToastKind.error, "Please select at least one unit")])
  else
    match outcome with
    | .ok response =>
      ({ st with
          studyMaterials := response.study_materials
          activeStep := 2
          loadingMaterials := false },
       true, [(ToastKind.success, "Study materials generated successfully!")])
    | .failed _ =>
      ({ st with loadingMaterials := false },
       true, [(ToastKind.error, "Failed to generate study materials")])

/-- Modelled from the spec: the SQLite-backed offline storage of quizzes is
not among the frontend sources; the spec describes it as "a plain key-value
persistence layer with no concurrency or consistency requirements beyond
basic CRUD", so saving a question set and loading it back through the
load-quiz endpoint returns the stored set unchanged. -/
def loadSavedQuiz (saved : List QuizQuestion) : List QuizQuestion :=
  saved

/-- The per-question normalization applied by `handleRetryQuiz` in the
OfflineManager component: `{...q, difficulty: q.difficulty || 'medium',
type: q.type || 'mcq'}`. -/
def normalizeLoadedQuestion (q : QuizQuestion) : QuizQuestion :=
  { q with
    difficulty := some (jsOr q.difficulty "medium")
    type := some (jsOr q.type "mcq") }

/-- The question list produced by `handleRetryQuiz` from a loaded quiz. -/
def handleRetryQuiz (loaded : List QuizQuestion) : List QuizQuestion :=
  loaded.map normalizeLoadedQuestion

/-- Persist a generated question set to offline storage and reload it via the
frontend load path (`handleRetryQuiz` over the load-quiz endpoint). -/
def quizRoundTrip (qs : List QuizQuestion) : List QuizQuestion :=
  handleRetryQuiz (loadSavedQuiz qs)

/-- Modelled from the spec: a fallback tier of the study-material pipeline
(the pipeline itself is backend code that is not among the sources) either
fails with an error (timeout, parse error, non-2xx response) or returns a
study-material collection. -/
abbrev TierOutcome := Except String StudyMaterial

/-- Modelled from the spec: "tier failures ... are caught locally and treated
as zero results, never propagated". -/
def caughtResult (t : TierOutcome) : StudyMaterial :=
  match t with
  | .ok m => m
  | .error _ => emptyStudyMaterial

/-- Modelled from the spec: the outcomes of the four tiers for one topic, in
the spec's fixed order: (1) parallel multi-source scrape, (2) single-threaded
basic scrape, (3) AI-generation call, (4) static fallback table lookup. -/
structure TierOutcomes where
  parallelScrape : TierOutcome
  basicScrape : TierOutcome
  aiGeneration : TierOutcome
  staticFallback : TierOutcome

/-- Modelled from the spec: the fallback selector tries the four tiers in
order and stops at the first tier whose combined (caught) result set is
non-empty; one non-empty category suffices.  It returns the selected
material together with the list of tiers that were invoked. -/
def fallbackSelector (t : TierOutcomes) : StudyMaterial × List Nat :=
  let m1 := caughtResult t.parallelScrape
  if !m1.isEmpty then (m1, [1])
  else
    let m2 := caughtResult t.basicScrape
    if !m2.isEmpty then (m2, [1, 2])
    else
      let m3 := caughtResult t.aiGeneration
      if !m3.isEmpty then (m3, [1, 2, 3])
      else (caughtResult t.staticFallback, [1, 2, 3, 4])

/-- Modelled from the spec: the study-material pipeline rejects an empty unit
list as a caller error and otherwise runs the fallback selector once per
unit, returning the selected materials keyed by unit; tier failures never
reach the caller. -/
def studyMaterialPipeline (subject : String) (units : List String)
    (tiers : String → TierOutcomes) :
    Except String (List (String × StudyMaterial)) :=
  if units.isEmpty then
    Except.error ("validation error: no units selected for " ++ subject)
  else
    Except.ok (units.map fun u => (u, (fallbackSelector (tiers u)).1))

/-- The correct-answer count as the claim words it: the number of indices
`i < N` whose user answer is defined and equal to the i-th question's
answer (stated independently of the code path, for comparison with
`correctAnswersCount`). -/
def spec_matchCount (questions : List QuizQuestion) (userAnswers : Nat → Option String) : Nat :=
  (List.range questions.length).countP fun i =>
    match userAnswers i with
    | some userAnswer => userAnswer == (questions.getD i default).answer
    | none => false

/-- The amended correct-answer count: the number of indices `i < N` whose
user answer is defined, non-empty, and equal to the i-th question's answer. -/
def spec_matchCountNonempty (questions : List QuizQuestion) (userAnswers : Nat → Option String) : Nat :=
  (List.range questions.length).countP fun i =>
    match userAnswers i with
    | some userAnswer => !(userAnswer == "") && userAnswer == (questions.getD i default).answer
    | none => false

/-- A quiz or flashcard navigation action of the store. -/
inductive NavOp where
  | next
  | previous
  | card (index : Int)

def applyNavOp (s : Store) (op : NavOp) : Store :=
  match op with
  | .next => nextQuestion s
  | .previous => previousQuestion s
  | .card index => setCurrentCard index s

def applyNavOps (ops : List NavOp) (s : Store) : Store :=
  ops.foldl applyNavOp s

/-- Bounds invariant of the two navigation indices: each is nonnegative and
either inside its list or equal to 0 (the initial value, which is the only
possibility while the list is empty). -/
def navIndexInv (s : Store) : Prop :=
  (0 ≤ s.quizState.currentQuestionIndex ∧
    (s.quizState.currentQuestionIndex < (s.quizState.questions.length : Int) ∨
      s.quizState.currentQuestionIndex = 0)) ∧
  (0 ≤ s.learningModeState.currentCardIndex ∧
    (s.learningModeState.currentCardIndex < (s.learningModeState.flashcards.length : Int) ∨
      s.learningModeState.currentCardIndex = 0))

/-- A generic multiple-choice question used by the concrete test inputs. -/
def exampleQuestion (i : Nat) : QuizQuestion where
  question := "Q" ++ toString i
  options := ["A", "B"]
  answer := "A"
  explanation := none
  topic := "topic"
  difficulty := some "medium"
  type := some "mcq"

/-- A question whose correct answer is the empty string. -/
def c1Question : QuizQuestion where
  question := "Q"
  options := []
  answer := ""
  explanation := none
  topic := "topic"
  difficulty := none
  type := none

/-- Store holding one question with answer `""` and the user answer `""`
recorded for it: the answer is defined and equal to the question's answer. -/
def c1Store : Store :=
  { initialStore with
    quizState :=
      { initialStore.quizState with
        questions := [c1Question]
        userAnswers := fun _ => some "" } }

/-- Ten questions with answer "A". -/
def c1ExampleQuestions : List QuizQuestion :=
  (List.range 10).map exampleQuestion

/-- User answers matching the correct answer on the first seven questions. -/
def c1ExampleAnswers : Nat → Option String :=
  fun i => if i < 7 then some "A" else some "B"

/-- Store for the 10-question / 7-correct example. -/
def c1ExampleStore : Store :=
  { initialStore with
    quizState :=
      { initialStore.quizState with
        questions := c1ExampleQuestions
        userAnswers := c1ExampleAnswers } }

def c8Video1 : Video where
  title := "alpha lecture"
  video_url := "https://v/1"
  views := 10
  likes := 1
  description := ""
  comment_count := 0
  top_comments := []
  thumbnail_url := ""
  published_date := none
  duration := some 300

def c8Video2 : Video where
  title := "beta lecture"
  video_url := "https://v/2"
  views := 20
  likes := 2
  description := ""
  comment_count := 0
  top_comments := []
  thumbnail_url := ""
  published_date := none
  duration := some 400

/-- Store whose filter state sits on page 2 with one item per page. -/
def c8Store : Store :=
  { initialStore with
    filterState := { initialStore.filterState with currentPage := 2, itemsPerPage := 1 } }

def c8Response : VideoResponse where
  videos := [c8Video1, c8Video2]
  total_count := 2
  source := "youtube_api"
  keyword := "lecture"

/-- Tier outcomes where every tier fails. -/
def c2AllFail : TierOutcomes where
  parallelScrape := Except.error "timeout"
  basicScrape := Except.error "parse error"
  aiGeneration := Except.error "quota"
  staticFallback := Except.error "no table entry"

def c3Record : StudyMaterialRecord where
  title := "Process scheduling"
  url := "https://example.edu/scheduling"
  description := "article"
  source := "geeksforgeeks"

/-- Tier outcomes where tier 1 fails with a network error and tier 2 returns
a single non-empty category. -/
def c3Tiers : TierOutcomes where
  parallelScrape := Except.error "network error"
  basicScrape := Except.ok { articles := [c3Record], videos := [], notes := [] }
  aiGeneration := Except.ok emptyStudyMaterial
  staticFallback := Except.ok emptyStudyMaterial

/-- A Study component state with no unit selected. -/
def c5Component : StudyComponent where
  selectedSubject := "CS501"
  selectedUnits := []
  studyMaterials := []
  quizQuestions := []
  currentQuestionIndex := 0
  userAnswers := fun _ => none
  quizCompleted := false
  loadingMaterials := false
  activeStep := 1

/-- A generated question whose optional `difficulty` and `type` fields are
absent. -/
def c6Question : QuizQuestion where
  question := "What is a deadlock?"
  options := ["x", "y"]
  answer := "x"
  explanation := none
  topic := "OS"
  difficulty := none
  type := none

/-- A generated question with both optional fields present and non-empty. -/
def c6GoodQuestion : QuizQuestion where
  question := "What is a deadlock?"
  options := ["x", "y"]
  answer := "x"
  explanation := some "circular wait"
  topic := "OS"
  difficulty := some "easy"
  type := some "mcq"

def navFlashcard : Flashcard where
  question := "f"
  answer := "a"
  type := "fact"

/-- Store with two quiz questions and one flashcard, both indices at 0. -/
def navStore : Store :=
  { initialStore with
    quizState := { initialStore.quizState with questions := [exampleQuestion 0, exampleQuestion 1] }
    learningModeState := { initialStore.learningModeState with flashcards := [navFlashcard] } }

/-- Whether a fetch outcome is one of the failure branches of the
`try`/`catch` in `fetchVideos`. -/
def FetchOutcome.isFailure : FetchOutcome → Bool
  | .success _ => false
  | _ => true

lemma countP_enumFrom {α : Type} [Inhabited α] (p : Nat × α → Bool) (l : List α) :
    ∀ n : Nat, (List.enumFrom n l).countP p =
      (List.range l.length).countP fun i => p (n + i, l.getD i default) := by
  induction l with
  | nil => intro n; simp
  | cons a l ih =>
    intro n
    rw [List.enumFrom, List.countP_cons, ih (n + 1), List.length_cons,
      List.range_succ_eq_map, List.countP_cons, List.countP_map]
    simp only [Function.comp_def, List.getD_cons_succ, List.getD_cons_zero, Nat.add_zero]
    congr 1
    have hfun : (fun i => p (n + 1 + i, l.getD i default)) =
        fun i => p (n + i.succ, l.getD i default) := by
      funext i
      rw [show n + 1 + i = n + i.succ by omega]
    rw [hfun]

lemma correctAnswersCount_eq_spec (qs : List QuizQuestion) (ans : Nat → Option String) :
    correctAnswersCount qs ans = spec_matchCountNonempty qs ans := by
  unfold correctAnswersCount spec_matchCountNonempty
  rw [show List.enum qs = List.enumFrom 0 qs from rfl, countP_enumFrom]
  simp only [Nat.zero_add]

/-- C4: quiz evaluation is idempotent: running `completeQuiz` a second time on
the resulting store changes nothing, and in particular both runs store the
identical score. -/
theorem c4_completeQuiz_idempotent :
    ∀ s : Store,
      completeQuiz (completeQuiz s) = completeQuiz s ∧
      (completeQuiz (completeQuiz s)).quizState.score = (completeQuiz s).quizState.score :=
  fun _ => ⟨rfl, rfl⟩

/-- C5: requesting study materials with an empty unit list is rejected by the
Study component's `generateStudyMaterials` with the validation toast
"Please select at least one unit"; no request is issued and the component
state is returned unchanged, whatever the request outcome would have been. -/
theorem c5_generateStudyMaterials_empty_units :
    ∀ (st : StudyComponent) (outcome : StudyRequestOutcome),
      st.selectedUnits = [] →
      generateStudyMaterials st outcome =
        (st, false, [(ToastKind.error, "Please select at least one unit")]) := by
  intro st outcome h
  unfold generateStudyMaterials
  rw [h]
  rfl

/-- Witness for C5 at a concrete component state with no selected units. -/
theorem c5_generateStudyMaterials_empty_units_witness :
    generateStudyMaterials c5Component (StudyRequestOutcome.failed "network error") =
      (c5Component, false, [(ToastKind.error, "Please select at least one unit")]) :=
  c5_generateStudyMaterials_empty_units c5Component (StudyRequestOutcome.failed "network error") rfl

/-- C1 counterexample: for the store holding one question whose correct
answer is the empty string and the user answer `""` recorded for it, the
user answer is defined and equal to the question's answer (so the claim's
count K is 1 and the claimed score is (1/1)*100 = 100), but `completeQuiz`
requires a truthy answer and stores score 0. -/
theorem c1_score_claim_counterexample :
    spec_matchCount c1Store.quizState.questions c1Store.quizState.userAnswers = 1 ∧
    c1Store.quizState.questions.length = 1 ∧
    (completeQuiz c1Store).quizState.score = 0 ∧
    (completeQuiz c1Store).quizState.score ≠
      ((spec_matchCount c1Store.quizState.questions c1Store.quizState.userAnswers : ℚ) /
        (c1Store.quizState.questions.length : ℚ)) * 100 := by
  have hc : correctAnswersCount c1Store.quizState.questions c1Store.quizState.userAnswers = 0 := by
    decide
  have hs : spec_matchCount c1Store.quizState.questions c1Store.quizState.userAnswers = 1 := by
    decide
  have hl : c1Store.quizState.questions.length = 1 := rfl
  refine ⟨hs, hl, ?_, ?_⟩
  · simp [completeQuiz, hc, hl]
  · simp [completeQuiz, hc, hs, hl]

/-- C1 (amended): `completeQuiz` stores score (K/N)*100 where K is the number
of indices whose user answer is defined, non-empty, and equal to the
question's answer; when N = 0 the score is 0 with no division; the
10-question example with 7 matching answers yields correct count 7 and
score 70. -/
theorem c1_completeQuiz_score_formula :
    (∀ s : Store,
       (completeQuiz s).quizState.score =
         if s.quizState.questions.length = 0 then 0
         else
           ((spec_matchCountNonempty s.quizState.questions s.quizState.userAnswers : ℚ) /
             (s.quizState.questions.length : ℚ)) * 100) ∧
    correctAnswersCount c1ExampleStore.quizState.questions c1ExampleStore.quizState.userAnswers = 7 ∧
    (completeQuiz c1ExampleStore).quizState.score = 70 := by
  have hc : correctAnswersCount c1ExampleStore.quizState.questions
      c1ExampleStore.quizState.userAnswers = 7 := by decide
  have hl : c1ExampleStore.quizState.questions.length = 10 := by decide
  refine ⟨fun s => ?_, hc, ?_⟩
  case refine_2 =>
    simp [completeQuiz, hc, hl]
    norm_num
  show (if s.quizState.questions.length > 0 then
          ((correctAnswersCount s.quizState.questions s.quizState.userAnswers : ℚ) /
            (s.quizState.questions.length : ℚ)) * 100
        else 0) = _
  rw [correctAnswersCount_eq_spec]
  rcases Nat.eq_zero_or_pos s.quizState.questions.length with h | h
  · simp [h]
  · simp [h, Nat.pos_iff_ne_zero.mp h]

/-- C6 counterexample: a generated question whose optional `difficulty` and
`type` fields are absent is not reproduced field-for-field by the offline
round trip: `handleRetryQuiz` rewrites the missing fields to "medium" and
"mcq". -/
theorem c6_quizRoundTrip_counterexample :
    quizRoundTrip [c6Question] ≠ [c6Question] := by
  decide

/-- C6 (amended): the offline round trip reproduces every question whose
`difficulty` and `type` fields are present and non-empty field-for-field,
and it never alters the `question`, `options`, `answer`, `explanation` or
`topic` field of any question; only an absent or empty `difficulty` (resp.
`type`) is replaced by "medium" (resp. "mcq"). -/
theorem c6_quizRoundTrip_preserves :
    (∀ qs : List QuizQuestion,
       (∀ q ∈ qs,
          (∃ d, q.difficulty = some d ∧ d ≠ "") ∧ (∃ ty, q.type = some ty ∧ ty ≠ "")) →
       quizRoundTrip qs = qs) ∧
    (∀ qs : List QuizQuestion,
       (quizRoundTrip qs).map
           (fun q => (q.question, q.options, q.answer, q.explanation, q.topic)) =
         qs.map (fun q => (q.question, q.options, q.answer, q.explanation, q.topic))) := by
  constructor
  · intro qs h
    show qs.map normalizeLoadedQuestion = qs
    rw [show qs = qs.map id by simp]
    rw [List.map_map]
    apply List.map_congr_left
    intro q hq
    obtain ⟨⟨d, hd, hdne⟩, ty, hty, htyne⟩ := h q (by simpa using hq)
    simp only [Function.comp_def, id_eq, normalizeLoadedQuestion, jsOr, hd, hty]
    rw [if_neg hdne, if_neg htyne, ← hd, ← hty]
  · intro qs
    show (qs.map normalizeLoadedQuestion).map _ = _
    rw [List.map_map]
    rfl

/-- Witness for C6 (amended) at a question with both optional fields
present. -/
theorem c6_quizRoundTrip_preserves_witness :
    quizRoundTrip [c6GoodQuestion] = [c6GoodQuestion] :=
  c6_quizRoundTrip_preserves.1 [c6GoodQuestion] (by
    intro q hq
    simp only [List.mem_singleton] at hq
    subst hq
    exact ⟨⟨"easy", rfl, by decide⟩, ⟨"mcq", rfl, by decide⟩⟩)

lemma append_ne_empty (a b : String) (h : a.length ≠ 0) : a ++ b ≠ "" := by
  intro hc
  have hlen := congrArg String.length hc
  rw [String.length_append, show ("" : String).length = 0 from rfl] at hlen
  omega

/-- C9: `setError` discards the previous search results (videos, filtered and
paginated lists become empty, the total count 0 and the source "") and
stores the message, while every other store field — keyword, loading, theme,
active tab, filter state and the transcription, learning-mode, syllabus,
quiz and report states — is left unchanged; on every `fetchVideos` failure
path the stored results are likewise empty. -/
theorem c9_setError_clears_results :
    (∀ (err : String) (s : Store),
       (setError err s).error = some err ∧
       (setError err s).videos = [] ∧
       (setError err s).filteredVideos = [] ∧
       (setError err s).paginatedVideos = [] ∧
       (setError err s).totalCount = 0 ∧
       (setError err s).source = "" ∧
       (setError err s).keyword = s.keyword ∧
       (setError err s).loading = s.loading ∧
       (setError err s).theme = s.theme ∧
       (setError err s).activeTab = s.activeTab ∧
       (setError err s).filterState = s.filterState ∧
       (setError err s).transcriptionState = s.transcriptionState ∧
       (setError err s).learningModeState = s.learningModeState ∧
       (setError err s).syllabusState = s.syllabusState ∧
       (setError err s).quizState = s.quizState ∧
       (setError err s).reportState = s.reportState) ∧
    (∀ (kw : String) (outcome : FetchOutcome) (s : Store),
       outcome.isFailure = true →
       (fetchVideos kw outcome s).videos = [] ∧
       (fetchVideos kw outcome s).filteredVideos = [] ∧
       (fetchVideos kw outcome s).paginatedVideos = [] ∧
       (fetchVideos kw outcome s).totalCount = 0 ∧
       (fetchVideos kw outcome s).source = "") := by
  constructor
  · intro err s
    exact ⟨rfl, rfl, rfl, rfl, rfl, rfl, rfl, rfl, rfl, rfl, rfl, rfl, rfl, rfl, rfl, rfl⟩
  · intro kw outcome s h
    by_cases hkw : jsTrim kw = ""
    · unfold fetchVideos
      rw [if_pos hkw]
      exact ⟨rfl, rfl, rfl, rfl, rfl⟩
    · cases outcome with
      | success r => simp [FetchOutcome.isFailure] at h
      | httpError d e =>
        unfold fetchVideos
        rw [if_neg hkw]
        exact ⟨rfl, rfl, rfl, rfl, rfl⟩
      | noResponse =>
        unfold fetchVideos
        rw [if_neg hkw]
        exact ⟨rfl, rfl, rfl, rfl, rfl⟩
      | axiosOther m =>
        unfold fetchVideos
        rw [if_neg hkw]
        exact ⟨rfl, rfl, rfl, rfl, rfl⟩
      | nonAxios m =>
        unfold fetchVideos
        rw [if_neg hkw]
        exact ⟨rfl, rfl, rfl, rfl, rfl⟩

/-- Witness for C9 at a concrete failing fetch. -/
theorem c9_setError_clears_results_witness :
    (fetchVideos "physics" FetchOutcome.noResponse initialStore).videos = [] ∧
    (fetchVideos "physics" FetchOutcome.noResponse initialStore).totalCount = 0 :=
  let h := c9_setError_clears_results.2 "physics" FetchOutcome.noResponse initialStore rfl
  ⟨h.1, h.2.2.2.1⟩

/-- C7: every upstream failure of the video search — a non-2xx response, no
response at all, or any other thrown error — leaves the store with
`loading = false` and a non-empty error message; `fetchVideos` is a total
function of the outcome, so no exception reaches the caller. -/
theorem c7_fetchVideos_failures_handled :
    ∀ (kw : String) (outcome : FetchOutcome) (s : Store),
      jsTrim kw ≠ "" → outcome.isFailure = true →
      (fetchVideos kw outcome s).loading = false ∧
      ∃ msg, (fetchVideos kw outcome s).error = some msg ∧ msg ≠ "" := by
  intro kw outcome s hkw h
  cases outcome with
  | success r => simp [FetchOutcome.isFailure] at h
  | httpError d e =>
    unfold fetchVideos
    rw [if_neg hkw]
    exact ⟨rfl, _, rfl, append_ne_empty _ _ (by decide)⟩
  | noResponse =>
    unfold fetchVideos
    rw [if_neg hkw]
    exact ⟨rfl, _, rfl, by decide⟩
  | axiosOther m =>
    unfold fetchVideos
    rw [if_neg hkw]
    exact ⟨rfl, _, rfl, append_ne_empty _ _ (by decide)⟩
  | nonAxios m =>
    unfold fetchVideos
    rw [if_neg hkw]
    exact ⟨rfl, _, rfl, append_ne_empty _ _ (by decide)⟩

/-- Witness for C7 at a concrete keyword and a dropped connection. -/
theorem c7_fetchVideos_failures_handled_witness :
    (fetchVideos "physics lectures" FetchOutcome.noResponse initialStore).loading = false ∧
    ∃ msg, (fetchVideos "physics lectures" FetchOutcome.noResponse initialStore).error = some msg ∧
      msg ≠ "" :=
  c7_fetchVideos_failures_handled "physics lectures" FetchOutcome.noResponse initialStore
    (by decide) rfl

/-- C8 failing input: on a store sitting on page 2 with one item per page,
`setResults` stores the stale page-2 slice in `paginatedVideos` while
resetting `currentPage` to 1, so `paginatedVideos` is not the page-1 slice
of `filteredVideos` that the invariant (and the code's own "Reset to first
page" comment) requires. -/
theorem c8_setResults_stale_page :
    (setResults c8Response c8Store).filterState.currentPage = 1 ∧
    (setResults c8Response c8Store).filteredVideos = [c8Video1, c8Video2] ∧
    (setResults c8Response c8Store).paginatedVideos = [c8Video2] ∧
    (setResults c8Response c8Store).paginatedVideos ≠
      (setResults c8Response c8Store).filteredVideos.take
        (setResults c8Response c8Store).filterState.itemsPerPage := by
  refine ⟨rfl, ?_, ?_, ?_⟩ <;> decide

lemma navIndexInv_applyNavOp (s : Store) (op : NavOp) (h : navIndexInv s) :
    navIndexInv (applyNavOp s op) := by
  obtain ⟨⟨hq0, hq1⟩, hc0, hc1⟩ := h
  cases op with
  | next =>
    show navIndexInv (nextQuestion s)
    unfold nextQuestion
    split_ifs with hcond
    · simp only [navIndexInv]
      omega
    · exact ⟨⟨hq0, hq1⟩, hc0, hc1⟩
  | previous =>
    show navIndexInv (previousQuestion s)
    unfold previousQuestion
    split_ifs with hcond
    · simp only [navIndexInv]
      omega
    · exact ⟨⟨hq0, hq1⟩, hc0, hc1⟩
  | card index =>
    show navIndexInv (setCurrentCard index s)
    unfold setCurrentCard
    split_ifs with hcond
    · simp only [navIndexInv]
      omega
    · exact ⟨⟨hq0, hq1⟩, hc0, hc1⟩

lemma navIndexInv_applyNavOps (ops : List NavOp) (s : Store) (h : navIndexInv s) :
    navIndexInv (applyNavOps ops s) := by
  induction ops generalizing s with
  | nil => exact h
  | cons op ops ih => exact ih (applyNavOp s op) (navIndexInv_applyNavOp s op h)

/-- C10: quiz and flashcard navigation keep their indices in bounds:
`nextQuestion` only ever moves the index to at most `questions.length - 1`,
`previousQuestion` only ever moves it to a nonnegative index,
`setCurrentCard` is the identity for any index outside
`[0, flashcards.length)`, and starting from the indices at 0 any sequence
of navigation actions leaves each index naming an existing element whenever
its list is non-empty. -/
theorem c10_navigation_in_bounds :
    (∀ s : Store,
       (nextQuestion s).quizState.currentQuestionIndex = s.quizState.currentQuestionIndex ∨
       (nextQuestion s).quizState.currentQuestionIndex ≤
         (s.quizState.questions.length : Int) - 1) ∧
    (∀ s : Store,
       (previousQuestion s).quizState.currentQuestionIndex = s.quizState.currentQuestionIndex ∨
       0 ≤ (previousQuestion s).quizState.currentQuestionIndex) ∧
    (∀ (s : Store) (index : Int),
       (index < 0 ∨ (s.learningModeState.flashcards.length : Int) ≤ index) →
       setCurrentCard index s = s) ∧
    (∀ (ops : List NavOp) (s : Store),
       s.quizState.currentQuestionIndex = 0 →
       s.learningModeState.currentCardIndex = 0 →
       ((applyNavOps ops s).quizState.questions ≠ [] →
          0 ≤ (applyNavOps ops s).quizState.currentQuestionIndex ∧
          (applyNavOps ops s).quizState.currentQuestionIndex <
            ((applyNavOps ops s).quizState.questions.length : Int)) ∧
       ((applyNavOps ops s).learningModeState.flashcards ≠ [] →
          0 ≤ (applyNavOps ops s).learningModeState.currentCardIndex ∧
          (applyNavOps ops s).learningModeState.currentCardIndex <
            ((applyNavOps ops s).learningModeState.flashcards.length : Int))) := by
  refine ⟨fun s => ?_, fun s => ?_, fun s index h => ?_, fun ops s hq hc => ?_⟩
  · unfold nextQuestion
    split_ifs with hcond
    · right
      show s.quizState.currentQuestionIndex + 1 ≤ _
      omega
    · left
      rfl
  · unfold previousQuestion
    split_ifs with hcond
    · right
      show (0 : Int) ≤ s.quizState.currentQuestionIndex - 1
      omega
    · left
      rfl
  · unfold setCurrentCard
    rw [if_neg (by omega)]
  · have hinv : navIndexInv (applyNavOps ops s) :=
      navIndexInv_applyNavOps ops s ⟨⟨by omega, Or.inr hq⟩, by omega, Or.inr hc⟩
    obtain ⟨⟨hq0, hq1⟩, hc0, hc1⟩ := hinv
    constructor
    · intro hne
      have hlen : 0 < (applyNavOps ops s).quizState.questions.length :=
        List.length_pos.mpr hne
      rcases hq1 with h1 | h1
      · exact ⟨hq0, h1⟩
      · constructor
        · omega
        · rw [h1]
          exact_mod_cast hlen
    · intro hne
      have hlen : 0 < (applyNavOps ops s).learningModeState.flashcards.length :=
        List.length_pos.mpr hne
      rcases hc1 with h1 | h1
      · exact ⟨hc0, h1⟩
      · constructor
        · omega
        · rw [h1]
          exact_mod_cast hlen

/-- Witness for C10 at a store with two questions and one flashcard. -/
theorem c10_navigation_in_bounds_witness :
    setCurrentCard 5 navStore = navStore ∧
    0 ≤ (applyNavOps [NavOp.next, NavOp.next, NavOp.previous] navStore).quizState.currentQuestionIndex ∧
    (applyNavOps [NavOp.next, NavOp.next, NavOp.previous] navStore).quizState.currentQuestionIndex <
      ((applyNavOps [NavOp.next, NavOp.next, NavOp.previous] navStore).quizState.questions.length :
        Int) := by
  have h := c10_navigation_in_bounds
  have hcard : setCurrentCard 5 navStore = navStore :=
    h.2.2.1 navStore 5 (by right; decide)
  have hseq :=
    (h.2.2.2 [NavOp.next, NavOp.next, NavOp.previous] navStore rfl rfl).1 (by decide)
  exact ⟨hcard, hseq.1, hseq.2⟩

lemma StudyMaterial.isEmpty_iff (m : StudyMaterial) :
    m.isEmpty = true ↔ m = emptyStudyMaterial := by
  cases m with
  | mk articles videos notes =>
    simp [StudyMaterial.isEmpty, emptyStudyMaterial, List.isEmpty_iff, and_assoc]

lemma fallbackSelector_all_empty (t : TierOutcomes)
    (h1 : (caughtResult t.parallelScrape).isEmpty = true)
    (h2 : (caughtResult t.basicScrape).isEmpty = true)
    (h3 : (caughtResult t.aiGeneration).isEmpty = true)
    (h4 : (caughtResult t.staticFallback).isEmpty = true) :
    fallbackSelector t = (emptyStudyMaterial, [1, 2, 3, 4]) := by
  simp [fallbackSelector, h1, h2, h3, (StudyMaterial.isEmpty_iff _).mp h4]

/-- C2: for every subject and non-empty unit list the study-material pipeline
returns a structurally valid result with one entry per unit (each entry a
record keyed by the three categories, each possibly empty) and never an
error; a unit for which all four tiers produced zero results is mapped to
the explicit empty result. -/
theorem c2_pipeline_never_errors :
    ∀ (subject : String) (units : List String) (tiers : String → TierOutcomes),
      units ≠ [] →
      ∃ r, studyMaterialPipeline subject units tiers = Except.ok r ∧
        r.map Prod.fst = units ∧
        ∀ u ∈ units,
          (caughtResult (tiers u).parallelScrape).isEmpty = true →
          (caughtResult (tiers u).basicScrape).isEmpty = true →
          (caughtResult (tiers u).aiGeneration).isEmpty = true →
          (caughtResult (tiers u).staticFallback).isEmpty = true →
          (u, emptyStudyMaterial) ∈ r := by
  intro subject units tiers hne
  refine ⟨units.map fun u => (u, (fallbackSelector (tiers u)).1), ?_, ?_, ?_⟩
  · unfold studyMaterialPipeline
    rw [if_neg (by simpa [List.isEmpty_iff] using hne)]
  · rw [List.map_map]
    exact List.map_id units
  · intro u hu h1 h2 h3 h4
    refine List.mem_map.mpr ⟨u, hu, ?_⟩
    rw [fallbackSelector_all_empty (tiers u) h1 h2 h3 h4]

/-- Witness for C2: one unit, all four tiers failing. -/
theorem c2_pipeline_never_errors_witness :
    ∃ r, studyMaterialPipeline "Operating Systems" ["Unit 1"] (fun _ => c2AllFail) =
        Except.ok r ∧
      r.map Prod.fst = ["Unit 1"] ∧ ("Unit 1", emptyStudyMaterial) ∈ r := by
  obtain ⟨r, hok, hkeys, hmem⟩ :=
    c2_pipeline_never_errors "Operating Systems" ["Unit 1"] (fun _ => c2AllFail) (by decide)
  exact ⟨r, hok, hkeys, hmem "Unit 1" (by decide) rfl rfl rfl rfl⟩

/-- C3: the fallback selector invokes its tiers in the fixed order
1 (parallel scrape), 2 (basic scrape), 3 (AI generation), 4 (static
fallback): the invocation trace is always an initial segment [1..k]; a later tier is
invoked only when every earlier tier's caught result set was empty; the
selector stops at — and returns the result of — the first tier whose caught
result has at least one non-empty category; when all four are empty it
returns the empty result after invoking all four tiers. -/
theorem c3_fallback_tier_order :
    ∀ t : TierOutcomes,
      ((fallbackSelector t).2 = [1] ∨ (fallbackSelector t).2 = [1, 2] ∨
        (fallbackSelector t).2 = [1, 2, 3] ∨ (fallbackSelector t).2 = [1, 2, 3, 4]) ∧
      (2 ∈ (fallbackSelector t).2 → (caughtResult t.parallelScrape).isEmpty = true) ∧
      (3 ∈ (fallbackSelector t).2 →
        (caughtResult t.parallelScrape).isEmpty = true ∧
        (caughtResult t.basicScrape).isEmpty = true) ∧
      (4 ∈ (fallbackSelector t).2 →
        (caughtResult t.parallelScrape).isEmpty = true ∧
        (caughtResult t.basicScrape).isEmpty = true ∧
        (caughtResult t.aiGeneration).isEmpty = true) ∧
      ((caughtResult t.parallelScrape).isEmpty = false →
        fallbackSelector t = (caughtResult t.parallelScrape, [1])) ∧
      ((caughtResult t.parallelScrape).isEmpty = true →
        (caughtResult t.basicScrape).isEmpty = false →
        fallbackSelector t = (caughtResult t.basicScrape, [1, 2])) ∧
      ((caughtResult t.parallelScrape).isEmpty = true →
        (caughtResult t.basicScrape).isEmpty = true →
        (caughtResult t.aiGeneration).isEmpty = false →
        fallbackSelector t = (caughtResult t.aiGeneration, [1, 2, 3])) ∧
      ((caughtResult t.parallelScrape).isEmpty = true →
        (caughtResult t.basicScrape).isEmpty = true →
        (caughtResult t.aiGeneration).isEmpty = true →
        fallbackSelector t = (caughtResult t.staticFallback, [1, 2, 3, 4])) := by
  intro t
  cases h1 : (caughtResult t.parallelScrape).isEmpty <;>
    cases h2 : (caughtResult t.basicScrape).isEmpty <;>
      cases h3 : (caughtResult t.aiGeneration).isEmpty <;>
        simp_all [fallbackSelector]

/-- Witness for C3: tier 1 fails with a network error, tier 2 returns one
non-empty category (articles only), so the selector stops at tier 2 with
exactly the trace [1, 2]. -/
theorem c3_fallback_tier_order_witness :
    fallbackSelector c3Tiers =
      ({ articles := [c3Record], videos := [], notes := [] }, [1, 2]) ∧
    (caughtResult c3Tiers.parallelScrape).isEmpty = true := by
  have h := c3_fallback_tier_order c3Tiers
  exact ⟨h.2.2.2.2.2.1 rfl rfl, h.2.1 (by decide)⟩
